import Mathlib

/-!
Verification of the StackStage local rule-based analysis and scoring engine.

The definitions below are a shallow embedding of the Python core:
  * `src/backend/utils/local_fallback.py`   (LocalAnalysisEngine)
  * `src/backend/fastapi/services/scoring.py` (ScoringEngine)
  * `src/backend/fastapi/services/diagram_engine.py` (DiagramEngine)
  * `src/backend/fastapi/services/analysis_engine.py` (AnalysisEngine recommendations)
  * `src/backend/utils/static_analyzer.py`  (StaticAnalyzer built-in analysis)

Python strings are modelled as Lean `String` (with `List Char` as the
underlying data) and Python ints as `Int`/`Nat`.  The overall-score
expression of `calculate_scores` is evaluated by CPython in IEEE-754
binary64; it is modelled exactly by dyadic rationals with
round-to-nearest-even at 53 significant bits, which coincides with
binary64 arithmetic on this computation's value range (nonnegative,
normal, far from overflow).  The spec's own exact-arithmetic reading of
the weighted sum is kept as a second, clearly named definition
(`weighted_overall_exact`) for comparison.  The regular-expression subset actually used
by the code (case-insensitive literals, character classes, `?`, `*` and
`{n,}` over single-character classes, alternation, one capture group,
negative lookahead) is implemented as a backtracking matcher with Python
`re` semantics: leftmost match, greedy quantifiers, alternation tries the
left branch first, `findall` scans non-overlapping matches left to right
and returns the capture of group 1 when the pattern has a group.
-/

set_option maxRecDepth 20000

namespace StackStage

/-! ### Characters and lower-casing (Python `str.lower` on ASCII) -/

def lcode (c : Char) : Nat :=
  if 65 ≤ c.toNat && c.toNat ≤ 90 then c.toNat + 32 else c.toNat

def lowerChar (c : Char) : Char :=
  if 65 ≤ c.toNat && c.toNat ≤ 90 then Char.ofNat (c.toNat + 32) else c

def lowerL (s : List Char) : List Char := s.map lowerChar

def upperChar (c : Char) : Char :=
  if 97 ≤ c.toNat && c.toNat ≤ 122 then Char.ofNat (c.toNat - 32) else c

def upperAscii (s : String) : String := String.mk (s.toList.map upperChar)

/-- Python `s.replace("_", " ")` (single-character pattern, so a plain
character map). -/
def replaceUnderscore (s : String) : String :=
  String.mk (s.toList.map (fun c => if c == '_' then ' ' else c))

/-! ### Boolean substring search (Python `needle in haystack`) -/

def prefB : List Char → List Char → Bool
  | [], _ => true
  | _ :: _, [] => false
  | a :: as, b :: bs => a == b && prefB as bs

def substrB (p : List Char) : List Char → Bool
  | [] => p.isEmpty
  | c :: rest => prefB p (c :: rest) || substrB p rest

theorem substrB_nil (t : List Char) : substrB [] t = true := by
  cases t <;> simp [substrB, prefB, List.isEmpty]

theorem prefB_self_append (p v : List Char) : prefB p (p ++ v) = true := by
  induction p with
  | nil => simp [prefB]
  | cons a as ih => simp [prefB, ih]

theorem substrB_of_parts (p : List Char) :
    ∀ u v t, t = u ++ p ++ v → substrB p t = true := by
  intro u
  induction u with
  | nil =>
    intro v t ht
    subst ht
    cases p with
    | nil => exact substrB_nil v
    | cons a as =>
      simp only [substrB, Bool.or_eq_true, List.cons_append]
      exact Or.inl (prefB_self_append (a :: as) v)
  | cons x u ih =>
    intro v t ht
    subst ht
    simp only [List.cons_append, substrB]
    have := ih v (u ++ p ++ v) (by simp)
    simp only [List.append_assoc] at this ⊢
    simp [this]

theorem prefB_parts (p : List Char) :
    ∀ t, prefB p t = true → ∃ w, t = p ++ w := by
  induction p with
  | nil => intro t _; exact ⟨t, rfl⟩
  | cons a as ih =>
    intro t hp
    cases t with
    | nil => simp [prefB] at hp
    | cons b bs =>
      simp only [prefB, Bool.and_eq_true, beq_iff_eq] at hp
      obtain ⟨w, hw⟩ := ih bs hp.2
      exact ⟨w, by simp [hp.1, hw]⟩

theorem substrB_parts (p : List Char) :
    ∀ t, substrB p t = true → ∃ u v, t = u ++ p ++ v := by
  intro t
  induction t with
  | nil =>
    intro h
    simp only [substrB, List.isEmpty_iff] at h
    exact ⟨[], [], by simp [h]⟩
  | cons c rest ih =>
    intro h
    simp only [substrB, Bool.or_eq_true] at h
    rcases h with h | h
    · obtain ⟨w, hw⟩ := prefB_parts p _ h
      exact ⟨[], w, by simp [hw]⟩
    · obtain ⟨u, v, huv⟩ := ih h
      exact ⟨c :: u, v, by simp [huv]⟩

theorem substrB_mono (p t u v : List Char) (h : substrB p t = true) :
    substrB p (u ++ t ++ v) = true := by
  obtain ⟨a, b, hab⟩ := substrB_parts p t h
  apply substrB_of_parts p (u ++ a) (b ++ v)
  simp [hab]

theorem substrB_drop_take (t : List Char) (a b : Nat) :
    substrB ((t.drop a).take b) t = true := by
  apply substrB_of_parts _ (t.take a) ((t.drop a).drop b)
  rw [List.append_assoc, List.take_append_drop, List.take_append_drop]

theorem strToList_append (a b : String) :
    (a ++ b).toList = a.toList ++ b.toList := by
  cases a; cases b; rfl

/-! ### Regular-expression subset used by the codebase -/

inductive RE where
  | eps : RE
  | pred : (Char → Bool) → RE
  | cat : RE → RE → RE
  | alt : RE → RE → RE
  | starp : (Char → Bool) → RE
  | nla : RE → RE
  | grp : RE → RE

/-- Match result: end position of the match and, when a capture group
participated, the (start, length) span of group 1. -/
abbrev MRes := Nat × Option (Nat × Nat)

/-- Greedy backtracking for `p*`: `run` is the maximal run of characters
satisfying `p`; try consuming the whole run first, then shorter prefixes. -/
def starGo (k : List Char → Nat → Option MRes) :
    List Char → List Char → Nat → Option MRes
  | [], rest, pos => k rest pos
  | c :: run, rest, pos =>
    (starGo k run rest (pos + 1)).orElse (fun _ => k (c :: (run ++ rest)) pos)

/-- CPS backtracking matcher with Python `re` semantics (leftmost,
greedy, alternation tries the left branch first). -/
def mc : RE → List Char → Nat → (List Char → Nat → Option MRes) → Option MRes
  | .eps, s, pos, k => k s pos
  | .pred p, s, pos, k =>
    match s with
    | [] => none
    | c :: s2 => if p c then k s2 (pos + 1) else none
  | .cat a b, s, pos, k => mc a s pos (fun s2 p2 => mc b s2 p2 k)
  | .alt a b, s, pos, k => (mc a s pos k).orElse (fun _ => mc b s pos k)
  | .starp p, s, pos, k => starGo k (s.takeWhile p) (s.dropWhile p) pos
  | .nla a, s, pos, k =>
    match mc a s pos (fun _ p2 => some (p2, none)) with
    | some _ => none
    | none => k s pos
  | .grp a, s, pos, k =>
    mc a s pos (fun s2 p2 => (k s2 p2).map (fun r => (r.1, some (pos, p2 - pos))))

/-- Try to match `r` at the start of `s` (absolute position `pos`). -/
def matchAt (r : RE) (s : List Char) (pos : Nat) : Option MRes :=
  mc r s pos (fun _ p2 => some (p2, none))

def hasGrp : RE → Bool
  | .eps => false
  | .pred _ => false
  | .starp _ => false
  | .cat a b => hasGrp a || hasGrp b
  | .alt a b => hasGrp a || hasGrp b
  | .nla a => hasGrp a
  | .grp _ => true

/-- Scan for non-overlapping matches left to right, as `re.findall` does,
returning (start, length) spans: the whole match, or the capture of group 1
when the pattern contains a group. -/
def findGo (r : RE) : Nat → List Char → Nat → List (Nat × Nat)
  | 0, _, _ => []
  | fuel + 1, s, pos =>
    match matchAt r s pos with
    | none =>
      match s with
      | [] => []
      | _ :: s2 => findGo r fuel s2 (pos + 1)
    | some (e, cap) =>
      let len := e - pos
      let sp : Nat × Nat :=
        if hasGrp r then (match cap with | some c => c | none => (pos, 0))
        else (pos, len)
      if len = 0 then
        sp :: (match s with | [] => [] | _ :: s2 => findGo r fuel s2 (pos + 1))
      else
        sp :: findGo r fuel (s.drop len) e

def findSpans (r : RE) (text : List Char) : List (Nat × Nat) :=
  findGo r (text.length + 1) text 0

/-- `re.findall`: the list of matched substrings (or group-1 captures). -/
def findall (r : RE) (text : List Char) : List (List Char) :=
  (findSpans r text).map (fun sp => (text.drop sp.1).take sp.2)

/-- `re.search` as a Boolean: does `r` match anywhere in `t`? -/
def searchGo (r : RE) : Nat → List Char → Nat → Bool
  | 0, _, _ => false
  | fuel + 1, s, pos =>
    match matchAt r s pos with
    | some _ => true
    | none =>
      match s with
      | [] => false
      | _ :: s2 => searchGo r fuel s2 (pos + 1)

def searchB (r : RE) (t : List Char) : Bool :=
  searchGo r (t.length + 1) t 0

theorem findall_substrB (r : RE) (text : List Char) :
    ∀ m ∈ findall r text, substrB m text = true := by
  intro m hm
  simp only [findall, List.mem_map] at hm
  obtain ⟨sp, _, hsp⟩ := hm
  rw [← hsp]
  exact substrB_drop_take text sp.1 sp.2

/-! ### Regex builders for the constructs the patterns use -/

/-- Case-insensitive literal character (the code compiles everything with
`re.IGNORECASE`). -/
def chI (a : Char) : RE := .pred (fun c => lcode c == lcode a)

/-- Case-insensitive literal string. -/
def litI (s : String) : RE := s.toList.foldr (fun c r => .cat (chI c) r) .eps

/-- Case-sensitive literal character (for `re.search` calls without flags). -/
def chE (a : Char) : RE := .pred (fun c => c == a)

def litE (s : String) : RE := s.toList.foldr (fun c r => .cat (chE c) r) .eps

def isSpaceB (c : Char) : Bool :=
  c == ' ' || c == '\t' || c == '\n' || c == '\r' || c == '\x0b' || c == '\x0c'

/-- `\s*` -/
def wsps : RE := .starp isSpaceB

/-- `.` without DOTALL: any character except newline. -/
def dotp (c : Char) : Bool := !(c == '\n')

/-- `.*` -/
def dots : RE := .starp dotp

def apos : Char := Char.ofNat 39

def isQuoteB (c : Char) : Bool := c == '"' || c == apos

def notQuoteB (c : Char) : Bool := !(isQuoteB c)

def isDigitB (c : Char) : Bool := '0' ≤ c && c ≤ '9'

def isAlnumB (c : Char) : Bool :=
  ('a' ≤ c && c ≤ 'z') || ('A' ≤ c && c ≤ 'Z') || isDigitB c

def isB64B (c : Char) : Bool := isAlnumB c || c == '+' || c == '/' || c == '='

def eqColonB (c : Char) : Bool := c == '=' || c == ':'

def dashUnderB (c : Char) : Bool := c == '-' || c == '_'

def digRange (lo hi : Char) (c : Char) : Bool := lo ≤ c && c ≤ hi

/-- `p?` (greedy). -/
def optp (p : Char → Bool) : RE := .alt (.pred p) .eps

/-- `p{n,}`: at least `n` repetitions of a single-character class. -/
def repAtLeast : Nat → (Char → Bool) → RE
  | 0, p => .starp p
  | n + 1, p => .cat (.pred p) (repAtLeast n p)

/-- Sequence a list of regexes. -/
def seqL (rs : List RE) : RE := rs.foldr .cat .eps

/-! ### LocalAnalysisEngine rule catalog (`local_fallback.py`, `__init__`)

Each Python pattern is given as a compiled `RE` together with its source
text (the raw-string value), which the engine interpolates into the
`evidence` field of a finding.  `qs` is the two-character sequence
backslash-apostrophe appearing inside the character classes. -/

def qs : String := String.mk ['\\', apos]

def reHardPassword : RE :=
  seqL [litI "password", wsps, .pred eqColonB, wsps, .pred isQuoteB,
        repAtLeast 8 notQuoteB, .pred isQuoteB]

def srcHardPassword : String :=
  "password\\s*[=:]\\s*[\"" ++ qs ++ "][^\"" ++ qs ++ "]\x7b8,\x7d[\"" ++ qs ++ "]"

def reApiKey : RE :=
  seqL [litI "api", optp dashUnderB, litI "key", wsps, .pred eqColonB, wsps,
        .pred isQuoteB, repAtLeast 20 isAlnumB, .pred isQuoteB]

def srcApiKey : String :=
  "api[_-]?key\\s*[=:]\\s*[\"" ++ qs ++ "][A-Za-z0-9]\x7b20,\x7d[\"" ++ qs ++ "]"

def reSecretKey : RE :=
  seqL [litI "secret", optp dashUnderB, litI "key", wsps, .pred eqColonB, wsps,
        .pred isQuoteB, repAtLeast 16 notQuoteB, .pred isQuoteB]

def srcSecretKey : String :=
  "secret[_-]?key\\s*[=:]\\s*[\"" ++ qs ++ "][^\"" ++ qs ++ "]\x7b16,\x7d[\"" ++ qs ++ "]"

def reAccessToken : RE :=
  seqL [litI "access", optp dashUnderB, litI "token", wsps, .pred eqColonB, wsps,
        .pred isQuoteB, repAtLeast 20 isB64B, .pred isQuoteB]

def srcAccessToken : String :=
  "access[_-]?token\\s*[=:]\\s*[\"" ++ qs ++ "][A-Za-z0-9+/=]\x7b20,\x7d[\"" ++ qs ++ "]"

def rePublicRW : RE :=
  seqL [litI "public", .pred dashUnderB, litI "read", .pred dashUnderB, litI "write"]

def srcPublicRW : String := "public[-_]read[-_]write"

def reCidrAll : RE := litI "0.0.0.0/0"

def srcCidrAll : String := "0\\.0\\.0\\.0/0"

def rePubAccessible : RE :=
  seqL [litI "publicly", .pred dashUnderB, litI "accessible", wsps, chI '=', wsps,
        litI "true"]

def srcPubAccessible : String := "publicly[-_]accessible\\s*=\\s*true"

def reStarAt : RE := litI "*:*@*"

def srcStarAt : String := "\\*:\\*@\\*"

def reEncryptedFalse : RE := seqL [litI "encrypted", wsps, chI '=', wsps, litI "false"]

def srcEncryptedFalse : String := "encrypted\\s*=\\s*false"

def reEncryptionNone : RE :=
  seqL [litI "encryption", wsps, chI '=', wsps, optp isQuoteB, litI "none",
        optp isQuoteB]

def srcEncryptionNone : String :=
  "encryption\\s*=\\s*[\"" ++ qs ++ "]?none[\"" ++ qs ++ "]?"

def reSslFalse : RE := seqL [litI "ssl", wsps, chI '=', wsps, litI "false"]

def srcSslFalse : String := "ssl\\s*=\\s*false"

def reTlsFalse : RE := seqL [litI "tls", wsps, chI '=', wsps, litI "false"]

def srcTlsFalse : String := "tls\\s*=\\s*false"

/-- `([2-9]|1[0-9]|2[0-9])` -/
def grpXlargeSize : RE :=
  .grp (.alt (.pred (digRange '2' '9'))
             (.alt (seqL [chI '1', .pred isDigitB]) (seqL [chI '2', .pred isDigitB])))

def reInstanceType : RE :=
  seqL [litI "instance_type", wsps, chI '=', wsps, optp isQuoteB, .starp isAlnumB,
        chI '.', grpXlargeSize, litI "xlarge"]

def srcInstanceType : String :=
  "instance_type\\s*=\\s*[\"" ++ qs ++ "]?[a-z0-9]*\\.([2-9]|1[0-9]|2[0-9])xlarge"

/-- `([8-9]|[1-9][0-9])` -/
def grpBigSize : RE :=
  .grp (.alt (.pred (digRange '8' '9')) (seqL [.pred (digRange '1' '9'), .pred isDigitB]))

def reMachineType : RE :=
  seqL [litI "machine_type", wsps, chI '=', wsps, optp isQuoteB,
        litI "n1-standard-", grpBigSize]

def srcMachineType : String :=
  "machine_type\\s*=\\s*[\"" ++ qs ++ "]?n1-standard-([8-9]|[1-9][0-9])"

def reVmSize : RE :=
  seqL [litI "vm_size", wsps, chI '=', wsps, optp isQuoteB, litI "Standard_D",
        grpBigSize]

def srcVmSize : String :=
  "vm_size\\s*=\\s*[\"" ++ qs ++ "]?Standard_D([8-9]|[1-9][0-9])"

def reNoReserved : RE :=
  seqL [.nla (seqL [dots, litI "reserved"]), dots, litI "instance_type"]

def srcNoReserved : String := "(?!.*reserved).*instance_type"

def reSingleAz1 : RE :=
  seqL [litI "availability_zone", wsps, chI '=', wsps, .pred isQuoteB,
        .starp notQuoteB, .pred isQuoteB,
        .nla (seqL [dots, litI "availability_zone"])]

def srcSingleAz1 : String :=
  "availability_zone\\s*=\\s*[\"" ++ qs ++ "][^\"" ++ qs ++ "]*[\"" ++ qs ++
    "](?!.*availability_zone)"

def reSingleAz2 : RE :=
  seqL [.nla (seqL [dots, litI "multi_az"]), dots, litI "aws_db_instance"]

def srcSingleAz2 : String := "(?!.*multi_az).*aws_db_instance"

def reNoBackupRetention : RE :=
  seqL [litI "backup_retention_period", wsps, chI '=', wsps, chI '0']

def srcNoBackupRetention : String := "backup_retention_period\\s*=\\s*0"

def reBackupFalse : RE := seqL [litI "backup", wsps, chI '=', wsps, litI "false"]

def srcBackupFalse : String := "backup\\s*=\\s*false"

def reNoBackupDb : RE :=
  seqL [.nla (seqL [dots, litI "backup"]), dots, litI "database"]

def srcNoBackupDb : String := "(?!.*backup).*database"

def reNoCaching : RE :=
  seqL [.nla (seqL [dots, litI "cache"]), .nla (seqL [dots, litI "redis"]),
        .nla (seqL [dots, litI "memcache"]), dots, litI "web", dots,
        litI "application"]

def srcNoCaching : String := "(?!.*cache)(?!.*redis)(?!.*memcache).*web.*application"

def reNoCdn : RE :=
  seqL [.nla (seqL [dots, litI "cloudfront"]), .nla (seqL [dots, litI "cdn"]),
        dots, litI "static", dots, litI "content"]

def srcNoCdn : String := "(?!.*cloudfront)(?!.*cdn).*static.*content"

/-- One entry of `self.rule_patterns[category]`. -/
structure PatRule where
  rule_name : String
  patterns : List (RE × String)
  severity : String
  message : String

def hardcoded_secrets : PatRule :=
  ⟨"hardcoded_secrets",
   [(reHardPassword, srcHardPassword), (reApiKey, srcApiKey),
    (reSecretKey, srcSecretKey), (reAccessToken, srcAccessToken)],
   "critical", "Hardcoded credentials detected - security risk"⟩

def public_access : PatRule :=
  ⟨"public_access",
   [(rePublicRW, srcPublicRW), (reCidrAll, srcCidrAll),
    (rePubAccessible, srcPubAccessible), (reStarAt, srcStarAt)],
   "high", "Public access configuration detected"⟩

def encryption_disabled : PatRule :=
  ⟨"encryption_disabled",
   [(reEncryptedFalse, srcEncryptedFalse), (reEncryptionNone, srcEncryptionNone),
    (reSslFalse, srcSslFalse), (reTlsFalse, srcTlsFalse)],
   "medium", "Encryption is disabled"⟩

def oversized_instances : PatRule :=
  ⟨"oversized_instances",
   [(reInstanceType, srcInstanceType), (reMachineType, srcMachineType),
    (reVmSize, srcVmSize)],
   "medium", "Potentially oversized compute instances detected"⟩

def no_reserved_instances : PatRule :=
  ⟨"no_reserved_instances", [(reNoReserved, srcNoReserved)],
   "low", "Consider using reserved instances for cost savings"⟩

def single_az : PatRule :=
  ⟨"single_az", [(reSingleAz1, srcSingleAz1), (reSingleAz2, srcSingleAz2)],
   "high", "Single AZ deployment - consider multi-AZ for high availability"⟩

def no_backups : PatRule :=
  ⟨"no_backups",
   [(reNoBackupRetention, srcNoBackupRetention), (reBackupFalse, srcBackupFalse),
    (reNoBackupDb, srcNoBackupDb)],
   "high", "No backup configuration detected"⟩

def no_caching : PatRule :=
  ⟨"no_caching", [(reNoCaching, srcNoCaching)],
   "medium", "No caching layer detected - consider adding cache for better performance"⟩

def no_cdn : PatRule :=
  ⟨"no_cdn", [(reNoCdn, srcNoCdn)],
   "low", "Consider using CDN for static content delivery"⟩

/-- `self.rule_patterns`, in Python dict insertion order. -/
def rule_patterns : List (String × List PatRule) :=
  [("security", [hardcoded_secrets, public_access, encryption_disabled]),
   ("cost", [oversized_instances, no_reserved_instances]),
   ("reliability", [single_az, no_backups]),
   ("performance", [no_caching, no_cdn])]

/-! ### `LocalAnalysisEngine._detect_issues` and `_get_business_impact` -/

/-- `_get_business_impact`: nested dict lookup with default
`'Business impact assessment needed'`. -/
def get_business_impact (severity category : String) : String :=
  if severity = "critical" then
    if category = "security" then "High risk of data breach and regulatory fines"
    else if category = "reliability" then "Service outages will affect business operations"
    else if category = "cost" then "Significant budget overruns expected"
    else if category = "performance" then "User experience degradation affects customer retention"
    else "Business impact assessment needed"
  else if severity = "high" then
    if category = "security" then "Moderate security risk requiring attention"
    else if category = "reliability" then "Potential service disruptions"
    else if category = "cost" then "Budget inefficiencies identified"
    else if category = "performance" then "Performance issues may impact user satisfaction"
    else "Business impact assessment needed"
  else if severity = "medium" then
    if category = "security" then "Security improvement opportunity"
    else if category = "reliability" then "Reliability enhancement recommended"
    else if category = "cost" then "Cost optimization opportunity available"
    else if category = "performance" then "Performance tuning recommended"
    else "Business impact assessment needed"
  else "Business impact assessment needed"

/-- One issue dict produced by `_detect_issues`. -/
structure Finding where
  id : String
  severity : String
  category : String
  detail : String
  evidence : String
  business_impact : String
  matches_found : Nat
  rule : String
deriving DecidableEq

/-- Innermost loop body of `_detect_issues`: run one pattern of a rule and
append a finding when the match set is non-empty. -/
def pattern_step (tl : List Char) (category : String) (r : PatRule)
    (issues : List Finding) (p : RE × String) : List Finding :=
  if (findall p.1 tl).isEmpty then issues
  else issues ++
    [{ id := "LOCAL_" ++ upperAscii r.rule_name ++ "_" ++ Nat.repr issues.length,
       severity := r.severity,
       category := category,
       detail := r.message,
       evidence := "Pattern matched: " ++ p.2,
       business_impact := get_business_impact r.severity category,
       matches_found := (findall p.1 tl).length,
       rule := r.rule_name }]

/-- `for pattern in patterns: ...` -/
def rule_step (tl : List Char) (category : String) (issues : List Finding)
    (r : PatRule) : List Finding :=
  r.patterns.foldl (pattern_step tl category r) issues

/-- `for rule_name, rule_config in rules.items(): ...` -/
def category_step (tl : List Char) (issues : List Finding)
    (cr : String × List PatRule) : List Finding :=
  cr.2.foldl (rule_step tl cr.1) issues

/-- `_detect_issues`, parameterised by the rule catalog held on `self`.
The regexes run against the raw `architecture_text` (the lower-cased copy
computed by the Python code is unused there), with IGNORECASE baked into
the compiled patterns. -/
def detect_issues_with (catalog : List (String × List PatRule))
    (architecture_text : String) : List Finding :=
  catalog.foldl (category_step architecture_text.toList) []

def detect_issues (architecture_text : String) : List Finding :=
  detect_issues_with rule_patterns architecture_text

/-! ### `_detect_architecture_pattern` and `_calculate_local_scores` -/

/-- One entry of `self.architecture_patterns`: name, `re.search` indicator
regexes (case-sensitive, run on the lower-cased text), score adjustments. -/
structure ArchPatternSpec where
  pname : String
  indicators : List RE
  score_adjustments : List (String × Int)

def architecture_patterns : List ArchPatternSpec :=
  [⟨"monolith",
    [seqL [litE "single", dots, litE "application"], litE "monolithic",
     seqL [litE "all", dots, litE "in", dots, litE "one"]],
    [("scalability", -10), ("maintainability", -5)]⟩,
   ⟨"microservices",
    [litE "microservice", seqL [litE "service", dots, litE "mesh"],
     seqL [litE "api", dots, litE "gateway"]],
    [("scalability", 15), ("complexity", 5)]⟩,
   ⟨"serverless",
    [litE "lambda", seqL [litE "function", dots, litE "app"],
     seqL [litE "cloud", dots, litE "functions"]],
    [("cost", 10), ("scalability", 10), ("cold_start", -5)]⟩,
   ⟨"container",
    [litE "docker", litE "kubernetes", litE "container", litE "ecs"],
    [("portability", 10), ("scalability", 5)]⟩]

def detect_architecture_pattern_with (patterns : List ArchPatternSpec)
    (architecture_text : String) : String :=
  let text_lower := lowerL architecture_text.toList
  match patterns.find? (fun ap => ap.indicators.any (fun i => searchB i text_lower)) with
  | some ap => ap.pname
  | none =>
    if ["lambda", "function"].any (fun k => substrB k.toList text_lower) then
      "serverless"
    else if ["microservice", "api"].any (fun k => substrB k.toList text_lower) then
      "microservices"
    else if ["container", "docker", "kubernetes"].any
        (fun k => substrB k.toList text_lower) then
      "containerized"
    else "traditional"

def detect_architecture_pattern (architecture_text : String) : String :=
  detect_architecture_pattern_with architecture_patterns architecture_text

/-- The `base_scores` dict of `_calculate_local_scores` (note: it has no
`scalability` key). -/
structure LocalScores where
  overall : Int
  security : Int
  reliability : Int
  performance : Int
  cost : Int
deriving DecidableEq

/-- Pattern-based adjustment: `if category in base_scores:
base_scores[category] = max(0, min(30, base_scores[category] + adjustment))`.
Categories absent from the dict (`maintainability`, `complexity`,
`cold_start`, `portability`, `scalability`) are skipped. -/
def adjustCategory (b : LocalScores) (cat : String) (adj : Int) : LocalScores :=
  if cat = "overall" then { b with overall := max 0 (min 30 (b.overall + adj)) }
  else if cat = "security" then { b with security := max 0 (min 30 (b.security + adj)) }
  else if cat = "reliability" then
    { b with reliability := max 0 (min 30 (b.reliability + adj)) }
  else if cat = "performance" then
    { b with performance := max 0 (min 30 (b.performance + adj)) }
  else if cat = "cost" then { b with cost := max 0 (min 30 (b.cost + adj)) }
  else b

/-- `{'critical': 8, 'high': 5, 'medium': 3, 'low': 1}.get(severity, 2)` -/
def severityDeduction (sev : String) : Int :=
  if sev = "critical" then 8
  else if sev = "high" then 5
  else if sev = "medium" then 3
  else if sev = "low" then 1
  else 2

/-- Issue deduction: `if category in base_scores and category != 'overall':
base_scores[category] = max(0, base_scores[category] - deduction)`. -/
def deductCategory (b : LocalScores) (cat : String) (d : Int) : LocalScores :=
  if cat = "security" then { b with security := max 0 (b.security - d) }
  else if cat = "reliability" then { b with reliability := max 0 (b.reliability - d) }
  else if cat = "performance" then { b with performance := max 0 (b.performance - d) }
  else if cat = "cost" then { b with cost := max 0 (b.cost - d) }
  else b

/-- `_calculate_local_scores`: base scores, pattern adjustments, issue
deductions, then `overall = security + reliability + performance + cost`. -/
def calculate_local_scores_with (catalog : List (String × List PatRule))
    (patterns : List ArchPatternSpec) (architecture_text : String) : LocalScores :=
  let base0 : LocalScores := ⟨75, 22, 23, 15, 15⟩
  let pat := detect_architecture_pattern_with patterns architecture_text
  let base1 :=
    match patterns.find? (fun ap => ap.pname = pat) with
    | some ap => ap.score_adjustments.foldl (fun b ca => adjustCategory b ca.1 ca.2) base0
    | none => base0
  let issues := detect_issues_with catalog architecture_text
  let base2 := issues.foldl
    (fun b i => deductCategory b i.category (severityDeduction i.severity)) base1
  { base2 with
      overall := base2.security + base2.reliability + base2.performance + base2.cost }

def calculate_local_scores (architecture_text : String) : LocalScores :=
  calculate_local_scores_with rule_patterns architecture_patterns architecture_text

/-! ### `LocalAnalysisEngine._extract_components` -/

def component_patterns_local : List (String × List String) :=
  [("load_balancer", ["load balancer", "alb", "elb", "nlb"]),
   ("compute", ["ec2", "instance", "server", "compute", "vm"]),
   ("database", ["rds", "database", "db", "mysql", "postgres"]),
   ("storage", ["s3", "storage", "bucket", "efs", "ebs"]),
   ("cache", ["redis", "elasticache", "memcached"]),
   ("cdn", ["cloudfront", "cdn"]),
   ("security", ["waf", "security group", "nacl"]),
   ("monitoring", ["cloudwatch", "monitoring", "logging"])]

/-- `_extract_components`: appends the component type once when any of its
keyword literals occurs in the lower-cased text.  There is no fallback: the
result is empty when nothing matches. -/
def extract_components (architecture_text : String) : List String :=
  (component_patterns_local.filter
    (fun cp => cp.2.any (fun p =>
      substrB p.toList (lowerL architecture_text.toList)))).map (fun cp => cp.1)

/-! ### `LocalAnalysisEngine._generate_recommendations` -/

structure RecImpact where
  latency_ms : Int
  cost_monthly_delta : Int
  risk_reduction : String
  implementation_effort : String
deriving DecidableEq

structure Recommendation where
  title : String
  rationale : String
  iac_fix : String
  impact : RecImpact
  priority : String
deriving DecidableEq

def securityRecFix : String :=
  "\n# Terraform security hardening\nresource \"aws_s3_bucket_public_access_block\" \"secure_bucket\" \x7b\n  bucket = aws_s3_bucket.main.id\n  \n  block_public_acls       = true\n  block_public_policy     = true\n  ignore_public_acls      = true\n  restrict_public_buckets = true\n\x7d\n\nresource \"aws_s3_bucket_encryption\" \"secure_bucket\" \x7b\n  bucket = aws_s3_bucket.main.id\n  \n  server_side_encryption_configuration \x7b\n    rule \x7b\n      apply_server_side_encryption_by_default \x7b\n        sse_algorithm = \"AES256\"\n      \x7d\n    \x7d\n  \x7d\n\x7d\n                "

def securityRec (nIssues : Nat) : Recommendation :=
  { title := "Implement Security Best Practices",
    rationale := "Found " ++ Nat.repr nIssues ++
      " security vulnerabilities that need immediate attention",
    iac_fix := securityRecFix,
    impact := ⟨0, 10, "Eliminates critical security vulnerabilities", "4-6 hours"⟩,
    priority := "P0" }

def multiAzRecFix : String :=
  "\n# Terraform Multi-AZ setup\nresource \"aws_db_instance\" \"main\" \x7b\n  identifier = \"main-database\"\n  multi_az   = true\n  \n  backup_retention_period = 7\n  backup_window          = \"03:00-04:00\"\n  maintenance_window     = \"sun:04:00-sun:05:00\"\n  \n  delete_automated_backups = false\n  deletion_protection     = true\n\x7d\n\nresource \"aws_autoscaling_group\" \"app\" \x7b\n  name = \"app-asg\"\n  availability_zones = [\"$\x7bvar.region\x7da\", \"$\x7bvar.region\x7db\", \"$\x7bvar.region\x7dc\"]\n  \n  health_check_type         = \"ELB\"\n  health_check_grace_period = 300\n\x7d\n                "

def multiAzRec : Recommendation :=
  { title := "Enable Multi-AZ High Availability",
    rationale := "Single AZ deployment creates availability risk and violates best practices",
    iac_fix := multiAzRecFix,
    impact := ⟨-20, 150, "Eliminates single points of failure", "2-3 days"⟩,
    priority := "P1" }

def sizingRecFix : String :=
  "\n# Right-sized instances with auto-scaling\nresource \"aws_launch_template\" \"optimized\" \x7b\n  name_prefix   = \"optimized-\"\n  instance_type = \"t3.medium\"  # Instead of large/xlarge\n  \n  monitoring \x7b\n    enabled = true\n  \x7d\n\x7d\n\nresource \"aws_autoscaling_policy\" \"scale_up\" \x7b\n  name                   = \"scale-up\"\n  scaling_adjustment     = 2\n  adjustment_type        = \"ChangeInCapacity\"\n  cooldown               = 300\n  autoscaling_group_name = aws_autoscaling_group.app.name\n\x7d\n                "

def sizingRec : Recommendation :=
  { title := "Optimize Instance Sizing",
    rationale := "Large instances detected - consider right-sizing for cost efficiency",
    iac_fix := sizingRecFix,
    impact := ⟨10, -200, "Reduces over-provisioning costs", "1-2 days"⟩,
    priority := "P2" }

/-- `_generate_recommendations` of the local engine: at most three
conditional items, no baseline set and no cap.  (The method also calls
`_detect_architecture_pattern` but never uses the result.) -/
def generate_recommendations_local (architecture_text : String) : List Recommendation :=
  (if ((detect_issues architecture_text).filter
      (fun i => i.category = "security")).isEmpty then []
   else [securityRec ((detect_issues architecture_text).filter
      (fun i => i.category = "security")).length]) ++
  (if !(substrB "multi".toList (lowerL architecture_text.toList)) &&
      !(substrB "availability".toList (lowerL architecture_text.toList))
   then [multiAzRec] else []) ++
  (if substrB "xlarge".toList (lowerL architecture_text.toList) ||
      substrB "large".toList (lowerL architecture_text.toList)
   then [sizingRec] else [])

/-! ### Engine state threading (`LocalAnalysisEngine` carries only the
static catalogs set in `__init__` and never mutates them) -/

structure LocalAnalysisEngine where
  rule_patterns : List (String × List PatRule)
  architecture_patterns : List ArchPatternSpec

def LocalAnalysisEngine.init : LocalAnalysisEngine :=
  ⟨StackStage.rule_patterns, StackStage.architecture_patterns⟩

/-- `self._detect_issues(text)` as an explicit state transformer: the method
reads `self.rule_patterns` and returns `self` unchanged. -/
def detect_issues_st (e : LocalAnalysisEngine) (architecture_text : String) :
    List Finding × LocalAnalysisEngine :=
  (detect_issues_with e.rule_patterns architecture_text, e)

/-- `self._calculate_local_scores(text)` as an explicit state transformer. -/
def calculate_local_scores_st (e : LocalAnalysisEngine) (architecture_text : String) :
    LocalScores × LocalAnalysisEngine :=
  (calculate_local_scores_with e.rule_patterns e.architecture_patterns
    architecture_text, e)

/-! ### ScoringEngine (`scoring.py`)

The decimal weights are modelled as exact rationals and Python `int()` as
truncation toward zero. -/

def scoring_weights_security : ℚ := 0.25

def scoring_weights_reliability : ℚ := 0.25

def scoring_weights_scalability : ℚ := 0.20

def scoring_weights_performance : ℚ := 0.15

def scoring_weights_cost : ℚ := 0.15

/-- Python `int(q)` for a rational: truncation toward zero. -/
def pyInt (q : ℚ) : Int := if 0 ≤ q then ⌊q⌋ else ⌈q⌉

/-! #### Exact model of the IEEE-754 binary64 arithmetic used by
`calculate_scores`

Every value arising in the overall-score expression is a nonnegative
dyadic rational far inside the normal binary64 range, so binary64
arithmetic on them is exactly: form the exact dyadic result, then round
it to 53 significant bits with ties to even. -/

/-- A nonnegative dyadic rational `n / 2^d`. -/
structure Dy where
  n : Nat
  d : Nat
deriving DecidableEq

def bitlenGo : Nat → Nat → Nat
  | 0, _ => 0
  | fuel + 1, m => if m = 0 then 0 else bitlenGo fuel (m / 2) + 1

/-- Bit length of a natural number (with fuel amply covering the value
range of this development). -/
def bitlen (m : Nat) : Nat := bitlenGo 200 m

/-- Round a nonnegative dyadic rational to 53 significant bits, ties to
even: binary64 rounding on this computation's range (no overflow,
underflow or subnormals can occur there). -/
def round53 (x : Dy) : Dy :=
  if bitlen x.n ≤ 53 then x
  else
    ⟨(if 2 ^ (bitlen x.n - 53 - 1) < x.n % 2 ^ (bitlen x.n - 53) ∨
         (x.n % 2 ^ (bitlen x.n - 53) = 2 ^ (bitlen x.n - 53 - 1) ∧
          x.n / 2 ^ (bitlen x.n - 53) % 2 = 1) then
        x.n / 2 ^ (bitlen x.n - 53) + 1
      else x.n / 2 ^ (bitlen x.n - 53)),
     x.d - (bitlen x.n - 53)⟩

/-- binary64 multiplication on the modelled range. -/
def fmul (a b : Dy) : Dy := round53 ⟨a.n * b.n, a.d + b.d⟩

/-- binary64 addition on the modelled range. -/
def fadd (a b : Dy) : Dy :=
  round53 ⟨a.n * 2 ^ (max a.d b.d - a.d) + b.n * 2 ^ (max a.d b.d - b.d),
    max a.d b.d⟩

/-- Python `int()` on a nonnegative dyadic (truncation toward zero). -/
def dyTrunc (x : Dy) : Nat := x.n / 2 ^ x.d

/-- The binary64 value of the literal `0.25` (exactly representable). -/
def w64_025 : Dy := ⟨1, 2⟩

/-- The binary64 value of the literal `0.20`:
`3602879701896397 * 2^-54`, the nearest double to 1/5. -/
def w64_02 : Dy := ⟨3602879701896397, 54⟩

/-- The binary64 value of the literal `0.15`:
`5404319552844595 * 2^-55`, the nearest double to 3/20. -/
def w64_015 : Dy := ⟨5404319552844595, 55⟩

/-- Sanity check: `w64_02` is within half an ulp (the 0.2 binade has
ulp `2^-55`) of 1/5, so it is the nearest double. -/
theorem w64_02_nearest :
    |(3602879701896397 : ℚ) / 2 ^ 54 - 1 / 5| ≤ 1 / 2 ^ 56 := by
  rw [abs_le]
  constructor <;> norm_num

/-- Sanity check: `w64_015` is within half an ulp of 3/20, so it is the
nearest double. -/
theorem w64_015_nearest :
    |(5404319552844595 : ℚ) / 2 ^ 55 - 3 / 20| ≤ 1 / 2 ^ 56 := by
  rw [abs_le]
  constructor <;> norm_num

def hasAnyTerm (terms : List String) (tl : List Char) : Bool :=
  terms.any (fun t => substrB t.toList tl)

structure ArchAnalysis where
  has_load_balancer : Bool
  has_multi_az : Bool
  has_monitoring : Bool
  has_backup : Bool
  has_encryption : Bool
  has_auto_scaling : Bool
  has_cache : Bool
  has_cdn : Bool
  has_iam : Bool
  has_vpc : Bool
  has_firewall : Bool
  has_database : Bool
  has_containers : Bool
  has_serverless : Bool
  cloud_provider : String
  complexity : String
deriving DecidableEq

/-- `_assess_complexity`: count recognised component keywords; `<= 3` low,
`<= 6` medium, else high. -/
def assess_complexity (architecture : String) : String :=
  let components := ["load balancer", "database", "cache", "cdn", "queue",
                     "lambda", "container", "microservice", "api gateway"]
  let arch_lower := lowerL architecture.toList
  let component_count :=
    (components.filter (fun c => substrB c.toList arch_lower)).length
  if component_count ≤ 3 then "low"
  else if component_count ≤ 6 then "medium"
  else "high"

/-- `_analyze_architecture`. -/
def analyze_architecture (architecture cloud_provider : String) : ArchAnalysis :=
  let arch_lower := lowerL architecture.toList
  { has_load_balancer := hasAnyTerm ["load balancer", "alb", "elb"] arch_lower,
    has_multi_az := hasAnyTerm ["multi-az", "multiple availability", "zone"] arch_lower,
    has_monitoring := hasAnyTerm ["monitoring", "cloudwatch", "logging"] arch_lower,
    has_backup := hasAnyTerm ["backup", "snapshot", "restore"] arch_lower,
    has_encryption := hasAnyTerm ["encryption", "ssl", "tls"] arch_lower,
    has_auto_scaling := hasAnyTerm ["auto scaling", "autoscaling", "scale"] arch_lower,
    has_cache := hasAnyTerm ["cache", "redis", "memcached"] arch_lower,
    has_cdn := hasAnyTerm ["cdn", "cloudfront", "distribution"] arch_lower,
    has_iam := hasAnyTerm ["iam", "role", "policy", "access"] arch_lower,
    has_vpc := hasAnyTerm ["vpc", "virtual private", "network"] arch_lower,
    has_firewall := hasAnyTerm ["firewall", "security group", "nacl"] arch_lower,
    has_database := hasAnyTerm ["database", "db", "rds", "mysql", "postgres"] arch_lower,
    has_containers := hasAnyTerm ["container", "docker", "kubernetes", "ecs"] arch_lower,
    has_serverless := hasAnyTerm ["lambda", "serverless", "function"] arch_lower,
    cloud_provider := cloud_provider,
    complexity := assess_complexity architecture }

/-- `_calculate_security_score` as a function of its Boolean signals,
mirroring the sequence of `+=`/`-=` adjustments and the final clamp. -/
def security_base (enc iam vpc fw mon bak waf ddos psub : Bool) : Int :=
  let base_score : Int := 60
  let base_score := if enc then base_score + 15 else base_score
  let base_score := if iam then base_score + 10 else base_score
  let base_score := if vpc then base_score + 8 else base_score
  let base_score := if fw then base_score + 7 else base_score
  let base_score := if !mon then base_score - 10 else base_score
  let base_score := if !bak then base_score - 5 else base_score
  let base_score := if waf then base_score + 5 else base_score
  let base_score := if ddos then base_score + 3 else base_score
  let base_score := if psub then base_score + 5 else base_score
  min (max base_score 0) 100

def calculate_security_score (analysis : ArchAnalysis) (architecture : String) : Int :=
  let arch_lower := lowerL architecture.toList
  security_base analysis.has_encryption analysis.has_iam analysis.has_vpc
    analysis.has_firewall analysis.has_monitoring analysis.has_backup
    (substrB "waf".toList arch_lower) (substrB "ddos".toList arch_lower)
    (substrB "private subnet".toList arch_lower)

/-- `_calculate_reliability_score` over its Boolean signals. -/
def reliability_base (maz lb bak mon fo red dr db : Bool) : Int :=
  let base_score : Int := 65
  let base_score := if maz then base_score + 15 else base_score
  let base_score := if lb then base_score + 10 else base_score
  let base_score := if bak then base_score + 8 else base_score
  let base_score := if mon then base_score + 7 else base_score
  let base_score := if fo then base_score + 5 else base_score
  let base_score := if red then base_score + 5 else base_score
  let base_score := if dr then base_score + 5 else base_score
  let base_score := if !maz then base_score - 15 else base_score
  let base_score := if !lb && db then base_score - 10 else base_score
  min (max base_score 0) 100

def calculate_reliability_score (analysis : ArchAnalysis) (architecture : String) : Int :=
  let arch_lower := lowerL architecture.toList
  reliability_base analysis.has_multi_az analysis.has_load_balancer
    analysis.has_backup analysis.has_monitoring
    (substrB "failover".toList arch_lower) (substrB "redundant".toList arch_lower)
    (substrB "disaster recovery".toList arch_lower) analysis.has_database

/-- `_calculate_scalability_score` over its Boolean signals (`chigh` is
`complexity == "high"`). -/
def scalability_base (asc lb cache cdn cont serv micro horiz qu chigh : Bool) : Int :=
  let base_score : Int := 70
  let base_score := if asc then base_score + 15 else base_score
  let base_score := if lb then base_score + 10 else base_score
  let base_score := if cache then base_score + 8 else base_score
  let base_score := if cdn then base_score + 7 else base_score
  let base_score := if cont then base_score + 8 else base_score
  let base_score := if serv then base_score + 5 else base_score
  let base_score := if micro then base_score + 10 else base_score
  let base_score := if horiz then base_score + 5 else base_score
  let base_score := if qu then base_score + 5 else base_score
  let base_score := if chigh then base_score - 5 else base_score
  min (max base_score 0) 100

def calculate_scalability_score (analysis : ArchAnalysis) (architecture : String) : Int :=
  let arch_lower := lowerL architecture.toList
  scalability_base analysis.has_auto_scaling analysis.has_load_balancer
    analysis.has_cache analysis.has_cdn analysis.has_containers
    analysis.has_serverless (substrB "microservices".toList arch_lower)
    (substrB "horizontal scaling".toList arch_lower)
    (substrB "queue".toList arch_lower || substrB "sqs".toList arch_lower)
    (analysis.complexity == "high")

/-- `_calculate_performance_score` over its Boolean signals. -/
def performance_base (cache cdn lb rr pool comp opt cont serv db web : Bool) : Int :=
  let base_score : Int := 70
  let base_score := if cache then base_score + 12 else base_score
  let base_score := if cdn then base_score + 10 else base_score
  let base_score := if lb then base_score + 8 else base_score
  let base_score := if rr then base_score + 8 else base_score
  let base_score := if pool then base_score + 5 else base_score
  let base_score := if comp then base_score + 3 else base_score
  let base_score := if opt then base_score + 5 else base_score
  let base_score := if cont then base_score + 5 else base_score
  let base_score := if serv then base_score + 3 else base_score
  let base_score := if !cache && db then base_score - 8 else base_score
  let base_score := if !cdn && web then base_score - 5 else base_score
  min (max base_score 0) 100

def calculate_performance_score (analysis : ArchAnalysis) (architecture : String) : Int :=
  let arch_lower := lowerL architecture.toList
  performance_base analysis.has_cache analysis.has_cdn analysis.has_load_balancer
    (substrB "read replica".toList arch_lower)
    (substrB "connection pooling".toList arch_lower)
    (substrB "compression".toList arch_lower)
    (substrB "optimization".toList arch_lower)
    analysis.has_containers analysis.has_serverless analysis.has_database
    (substrB "web".toList arch_lower)

/-- `_calculate_cost_score` over its Boolean signals. -/
def cost_base (asc serv cache spot resv life cmon chigh maz dbw largeW instW : Bool) : Int :=
  let base_score : Int := 70
  let base_score := if asc then base_score + 12 else base_score
  let base_score := if serv then base_score + 10 else base_score
  let base_score := if cache then base_score + 5 else base_score
  let base_score := if spot then base_score + 8 else base_score
  let base_score := if resv then base_score + 6 else base_score
  let base_score := if life then base_score + 5 else base_score
  let base_score := if cmon then base_score + 5 else base_score
  let base_score := if chigh then base_score - 8 else base_score
  let base_score := if maz && dbw then base_score - 3 else base_score
  let base_score := if largeW && instW then base_score - 5 else base_score
  min (max base_score 0) 100

def calculate_cost_score (analysis : ArchAnalysis) (architecture : String) : Int :=
  let arch_lower := lowerL architecture.toList
  cost_base analysis.has_auto_scaling analysis.has_serverless analysis.has_cache
    (substrB "spot instance".toList arch_lower)
    (substrB "reserved instance".toList arch_lower)
    (substrB "lifecycle policy".toList arch_lower)
    (substrB "cost monitoring".toList arch_lower)
    (analysis.complexity == "high") analysis.has_multi_az
    (substrB "database".toList arch_lower)
    (substrB "large".toList arch_lower) (substrB "instance".toList arch_lower)

/-- The overall formula of `calculate_scores` as the spec words it, in
exact arithmetic: `int(sec*0.25 + rel*0.25 + scal*0.20 + perf*0.15 +
cost*0.15)` over the rationals.  Kept for comparison with the float64
computation the program actually performs. -/
def weighted_overall_exact (s r sc p c : Int) : Int :=
  pyInt ((s : ℚ) * scoring_weights_security + (r : ℚ) * scoring_weights_reliability +
         (sc : ℚ) * scoring_weights_scalability +
         (p : ℚ) * scoring_weights_performance + (c : ℚ) * scoring_weights_cost)

/-- The overall formula as the program computes it: the left-associated
binary64 sum `sec*0.25 + rel*0.25 + scal*0.20 + perf*0.15 + cost*0.15`
followed by `int()` truncation.  Sub-scores are clamped nonnegative
integers at most 100, so the int-to-float conversions are exact. -/
def weighted_overall_f64 (s r sc p c : Int) : Int :=
  (dyTrunc (fadd (fadd (fadd (fadd (fmul ⟨s.toNat, 0⟩ w64_025)
    (fmul ⟨r.toNat, 0⟩ w64_025)) (fmul ⟨sc.toNat, 0⟩ w64_02))
    (fmul ⟨p.toNat, 0⟩ w64_015)) (fmul ⟨c.toNat, 0⟩ w64_015)) : Int)

structure ScoreDict where
  overall : Int
  security : Int
  reliability : Int
  scalability : Int
  performance : Int
  cost : Int
deriving DecidableEq

/-- `ScoringEngine.calculate_scores` (the non-exceptional path). -/
def calculate_scores (architecture cloud_provider : String) : ScoreDict :=
  let analysis := analyze_architecture architecture cloud_provider
  let security_score := calculate_security_score analysis architecture
  let reliability_score := calculate_reliability_score analysis architecture
  let scalability_score := calculate_scalability_score analysis architecture
  let performance_score := calculate_performance_score analysis architecture
  let cost_score := calculate_cost_score analysis architecture
  { overall := weighted_overall_f64 security_score reliability_score
      scalability_score performance_score cost_score,
    security := security_score,
    reliability := reliability_score,
    scalability := scalability_score,
    performance := performance_score,
    cost := cost_score }

/-- `_get_default_scores`, substituted by the caller on an exception. -/
def get_default_scores : ScoreDict :=
  { overall := 75, security := 70, reliability := 75, scalability := 80,
    performance := 75, cost := 70 }

/-! ### AnalysisEngine `_generate_recommendations` (`analysis_engine.py`) -/

/-- `scores.get(key, 70)`: the dict produced by `calculate_scores` always
carries all five keys, so `get` reads the field. -/
def generate_recommendations_engine (scores : ScoreDict) : List String :=
  let recommendations : List String := []
  let recommendations :=
    if scores.security < 75 then
      recommendations ++ ["Implement comprehensive security policies and access controls"]
    else recommendations
  let recommendations :=
    if scores.reliability < 75 then
      recommendations ++ ["Add redundancy and failover mechanisms"]
    else recommendations
  let recommendations :=
    if scores.cost < 75 then
      recommendations ++ ["Optimize resource allocation and implement cost monitoring"]
    else recommendations
  let recommendations :=
    if scores.performance < 75 then
      recommendations ++ ["Review performance bottlenecks and scaling strategies"]
    else recommendations
  let recommendations := recommendations ++
    ["Implement infrastructure as code for consistency and version control",
     "Add comprehensive monitoring and alerting for all critical components",
     "Establish automated backup and disaster recovery procedures"]
  recommendations.take 6

/-! ### DiagramEngine `_parse_architecture_components` (`diagram_engine.py`) -/

def component_patterns_diagram : List (String × List String) :=
  [("load_balancer", ["load balancer", "alb", "elb", "nginx", "haproxy"]),
   ("web_server", ["web server", "apache", "nginx", "iis", "ec2"]),
   ("app_server", ["application server", "app server", "tomcat", "express"]),
   ("database", ["database", "db", "rds", "mysql", "postgresql", "mongodb"]),
   ("cache", ["cache", "redis", "memcached", "elasticache"]),
   ("queue", ["queue", "sqs", "rabbitmq", "kafka"]),
   ("storage", ["storage", "s3", "bucket", "blob", "file"]),
   ("cdn", ["cdn", "cloudfront", "distribution"]),
   ("api_gateway", ["api gateway", "api", "gateway"]),
   ("lambda", ["lambda", "function", "serverless"]),
   ("container", ["container", "docker", "ecs", "kubernetes", "k8s"]),
   ("monitoring", ["monitoring", "cloudwatch", "datadog", "newrelic"])]

/-- `_assess_component_risk`. -/
def assess_component_risk (component_type : String) (_content : String) : String :=
  if ["database", "storage", "api_gateway"].contains component_type then "high"
  else if ["web_server", "app_server", "cache"].contains component_type then "medium"
  else "low"

/-- Python `str.title()` on ASCII: uppercase a letter that follows a
non-letter, lowercase a letter that follows a letter. -/
def titleGo : Bool → List Char → List Char
  | _, [] => []
  | prevAlpha, c :: rest =>
    let isAl := ('a' ≤ c && c ≤ 'z') || ('A' ≤ c && c ≤ 'Z')
    let c2 := if isAl then (if prevAlpha then lowerChar c else upperChar c) else c
    c2 :: titleGo isAl rest

def pyTitle (s : String) : String := String.mk (titleGo false s.toList)

structure DiagComponent where
  ctype : String
  cname : String
  risk_level : String
  connections : List String
deriving DecidableEq

/-- The components detected by the keyword scan, before the fallback: one
component per component type whose pattern list has a match (the inner
loop `break`s after the first matching keyword). -/
def detected_components (content : String) : List DiagComponent :=
  (component_patterns_diagram.filter
      (fun cp => cp.2.any (fun p => substrB p.toList (lowerL content.toList)))).map
    (fun cp =>
      { ctype := cp.1,
        cname := pyTitle (replaceUnderscore cp.1),
        risk_level := assess_component_risk cp.1 content,
        connections := [] })

/-- The fixed generic fallback component list. -/
def generic_components : List DiagComponent :=
  [{ ctype := "users", cname := "Users", risk_level := "low", connections := [] },
   { ctype := "web_app", cname := "Web Application", risk_level := "medium",
     connections := [] },
   { ctype := "database", cname := "Database", risk_level := "high",
     connections := [] }]

/-- `_parse_architecture_components`. -/
def parse_architecture_components (content : String) : List DiagComponent :=
  if (detected_components content).isEmpty then generic_components
  else detected_components content

/-! ### StaticAnalyzer `_built_in_analysis` (`static_analyzer.py`)

The check loop is identical for every IaC type; only the pattern table
differs.  We embed the loop parameterised by the table, together with the
`generic` table (whose two regexes coincide with the first two
`hardcoded_secrets` patterns of the local engine). -/

structure CheckSpec where
  check_key : String
  pattern : RE
  pattern_src : String
  message : String
  severity : String

def generic_patterns : List CheckSpec :=
  [⟨"password_hardcoded", reHardPassword, srcHardPassword,
    "Hardcoded password detected", "critical"⟩,
   ⟨"api_key_hardcoded", reApiKey, srcApiKey,
    "Hardcoded API key detected", "high"⟩]

structure FailedCheck where
  check_id : String
  check_name : String
  severity : String
  description : String
  matches_cnt : Nat
  evidence : List String
deriving DecidableEq

structure BuiltinSummary where
  total_checks : Nat
  passed_checks : Nat
  failed_checks : Nat
deriving DecidableEq

/-- The `analysis_results` dict (the static `tool` and `compliance_status`
entries carry no analysis state and are omitted). -/
structure BuiltinResults where
  summary : BuiltinSummary
  failed_checks : List FailedCheck
  security_score : Int
deriving DecidableEq

/-- One iteration of the check loop: run `findall`, bump the counters, and
on a non-empty match set append a failed check whose evidence is the first
3 matches. -/
def built_in_step (content_chars : List Char) (acc : BuiltinResults)
    (check : CheckSpec) : BuiltinResults :=
  if (findall check.pattern content_chars).isEmpty then
    { acc with
        summary := ⟨acc.summary.total_checks + 1, acc.summary.passed_checks + 1,
          acc.summary.failed_checks⟩ }
  else
    { acc with
        summary := ⟨acc.summary.total_checks + 1, acc.summary.passed_checks,
          acc.summary.failed_checks + 1⟩,
        failed_checks := acc.failed_checks ++
          [{ check_id := "BUILTIN_" ++ upperAscii check.check_key,
             check_name := pyTitle (replaceUnderscore check.check_key),
             severity := check.severity,
             description := check.message,
             matches_cnt := (findall check.pattern content_chars).length,
             evidence := ((findall check.pattern content_chars).take 3).map
               String.mk }] }

/-- The check-loop fold of `_built_in_analysis`, starting from the initial
`analysis_results` dict (default security score 85). -/
def built_in_fold (patterns : List CheckSpec) (content : String) : BuiltinResults :=
  patterns.foldl (built_in_step content.toList) ⟨⟨0, 0, 0⟩, [], 85⟩

/-- The severity-adjusted security score computed from the fold result:
`int(passed/total * 100) - 20*critical_fails - 10*high_fails`, floored at 0. -/
def built_in_score (step : BuiltinResults) : Int :=
  max 0 (pyInt ((step.summary.passed_checks : ℚ) /
        (step.summary.total_checks : ℚ) * 100) -
    ((step.failed_checks.filter (fun c => c.severity = "critical")).length : Int) * 20 -
    ((step.failed_checks.filter (fun c => c.severity = "high")).length : Int) * 10)

/-- `_built_in_analysis`: fold the check loop over the pattern table, then
derive the security score from the pass ratio and the severities. -/
def built_in_analysis (patterns : List CheckSpec) (content : String) : BuiltinResults :=
  if 0 < (built_in_fold patterns content).summary.total_checks then
    { built_in_fold patterns content with
        security_score := built_in_score (built_in_fold patterns content) }
  else built_in_fold patterns content

/-! ## Helper lemmas -/

theorem foldl_invariant {σ β : Type} (step : σ → β → σ) (P : σ → Prop)
    (hstep : ∀ acc b, P acc → P (step acc b)) :
    ∀ (l : List β) (acc : σ), P acc → P (l.foldl step acc) := by
  intro l
  induction l with
  | nil => intro acc hacc; exact hacc
  | cons b bs ih => intro acc hacc; exact ih _ (hstep acc b hacc)

/-! ### Range facts for the local score dictionary -/

/-- The four category entries of the local `base_scores` dict stay
in `[0, 30]`. -/
def localFourRange (b : LocalScores) : Prop :=
  (0 ≤ b.security ∧ b.security ≤ 30) ∧ (0 ≤ b.reliability ∧ b.reliability ≤ 30) ∧
  (0 ≤ b.performance ∧ b.performance ≤ 30) ∧ (0 ≤ b.cost ∧ b.cost ≤ 30)

theorem clamp30_lb (x : Int) : 0 ≤ max 0 (min 30 x) := le_max_left 0 _

theorem clamp30_ub (x : Int) : max 0 (min 30 x) ≤ 30 :=
  max_le (by norm_num) (min_le_left 30 x)

theorem clampSub_lb (x d : Int) : 0 ≤ max 0 (x - d) := le_max_left 0 _

theorem clampSub_ub (x d : Int) (hx : x ≤ 30) (hd : 0 ≤ d) : max 0 (x - d) ≤ 30 :=
  max_le (by norm_num) (by omega)

theorem severityDeduction_nonneg (sev : String) : 0 ≤ severityDeduction sev := by
  unfold severityDeduction
  split_ifs <;> norm_num

theorem adjustCategory_range (b : LocalScores) (cat : String) (adj : Int)
    (hb : localFourRange b) : localFourRange (adjustCategory b cat adj) := by
  obtain ⟨hs, hr, hp, hc⟩ := hb
  unfold adjustCategory
  split_ifs <;>
    exact ⟨by first | exact ⟨clamp30_lb _, clamp30_ub _⟩ | exact hs,
           by first | exact ⟨clamp30_lb _, clamp30_ub _⟩ | exact hr,
           by first | exact ⟨clamp30_lb _, clamp30_ub _⟩ | exact hp,
           by first | exact ⟨clamp30_lb _, clamp30_ub _⟩ | exact hc⟩

theorem deductCategory_range (b : LocalScores) (cat : String) (d : Int)
    (hd : 0 ≤ d) (hb : localFourRange b) : localFourRange (deductCategory b cat d) := by
  obtain ⟨hs, hr, hp, hc⟩ := hb
  unfold deductCategory
  split_ifs <;>
    exact ⟨by first | exact ⟨clampSub_lb _ _, clampSub_ub _ _ (by omega) hd⟩ | exact hs,
           by first | exact ⟨clampSub_lb _ _, clampSub_ub _ _ (by omega) hd⟩ | exact hr,
           by first | exact ⟨clampSub_lb _ _, clampSub_ub _ _ (by omega) hd⟩ | exact hp,
           by first | exact ⟨clampSub_lb _ _, clampSub_ub _ _ (by omega) hd⟩ | exact hc⟩

theorem calculate_local_scores_range (catalog : List (String × List PatRule))
    (patterns : List ArchPatternSpec) (architecture_text : String) :
    localFourRange (calculate_local_scores_with catalog patterns architecture_text) := by
  unfold calculate_local_scores_with
  have h0 : localFourRange ⟨75, 22, 23, 15, 15⟩ := by
    refine ⟨⟨?_, ?_⟩, ⟨?_, ?_⟩, ⟨?_, ?_⟩, ⟨?_, ?_⟩⟩ <;> norm_num
  have h1 : localFourRange
      (match patterns.find?
          (fun ap => ap.pname =
            detect_architecture_pattern_with patterns architecture_text) with
       | some ap => ap.score_adjustments.foldl
           (fun b ca => adjustCategory b ca.1 ca.2) ⟨75, 22, 23, 15, 15⟩
       | none => (⟨75, 22, 23, 15, 15⟩ : LocalScores)) := by
    cases patterns.find?
        (fun ap => ap.pname =
          detect_architecture_pattern_with patterns architecture_text) with
    | none => exact h0
    | some ap =>
      exact foldl_invariant _ localFourRange
        (fun acc ca hacc => adjustCategory_range acc ca.1 ca.2 hacc)
        ap.score_adjustments _ h0
  have h2 := foldl_invariant
    (fun b i => deductCategory b i.category (severityDeduction i.severity))
    localFourRange
    (fun acc i hacc =>
      deductCategory_range acc i.category (severityDeduction i.severity)
        (severityDeduction_nonneg i.severity) hacc)
    (detect_issues_with catalog architecture_text) _ h1
  exact h2

/-! ### Bounds of the ScoringEngine sub-scores, by exhausting the
Boolean signal space -/

theorem security_base_bounds (e i v f m b w d p : Bool) :
    45 ≤ security_base e i v f m b w d p ∧ security_base e i v f m b w d p ≤ 100 := by
  revert e i v f m b w d p
  decide

theorem reliability_base_bounds (maz lb bak mon fo red dr db : Bool) :
    0 ≤ reliability_base maz lb bak mon fo red dr db ∧
      reliability_base maz lb bak mon fo red dr db ≤ 100 := by
  revert maz lb bak mon fo red dr db
  decide

theorem scalability_base_bounds (asc lb cache cdn cont serv micro horiz qu chigh : Bool) :
    0 ≤ scalability_base asc lb cache cdn cont serv micro horiz qu chigh ∧
      scalability_base asc lb cache cdn cont serv micro horiz qu chigh ≤ 100 := by
  revert asc lb cache cdn cont serv micro horiz qu chigh
  decide

theorem performance_base_bounds (cache cdn lb rr pool comp opt cont serv db web : Bool) :
    0 ≤ performance_base cache cdn lb rr pool comp opt cont serv db web ∧
      performance_base cache cdn lb rr pool comp opt cont serv db web ≤ 100 := by
  revert cache cdn lb rr pool comp opt cont serv db web
  decide

theorem cost_base_bounds (asc serv cache spot resv life cmon chigh maz dbw largeW instW : Bool) :
    0 ≤ cost_base asc serv cache spot resv life cmon chigh maz dbw largeW instW ∧
      cost_base asc serv cache spot resv life cmon chigh maz dbw largeW instW ≤ 100 := by
  revert asc serv cache spot resv life cmon chigh maz dbw largeW instW
  decide

/-! ### Monotonicity of the security sub-score under text extension -/

def bIte (x : Bool) (k : Int) : Int := if x then k else 0

theorem security_base_sum (e i v f m b w d p : Bool) :
    security_base e i v f m b w d p =
      min (max (60 + bIte e 15 + bIte i 10 + bIte v 8 + bIte f 7 - bIte (!m) 10 -
        bIte (!b) 5 + bIte w 5 + bIte d 3 + bIte p 5) 0) 100 := by
  revert e i v f m b w d p
  decide

theorem bIte_le (x y : Bool) (k : Int) (hk : 0 ≤ k) (h : x = true → y = true) :
    bIte x k ≤ bIte y k := by
  cases x <;> cases y <;> simp_all [bIte]

theorem bIte_neg_le (x y : Bool) (k : Int) (hk : 0 ≤ k) (h : x = true → y = true) :
    bIte (!y) k ≤ bIte (!x) k := by
  cases x <;> cases y <;> simp_all [bIte]

theorem security_base_mono
    (e1 i1 v1 f1 m1 b1 w1 d1 p1 e2 i2 v2 f2 m2 b2 w2 d2 p2 : Bool)
    (he : e1 = true → e2 = true) (hi : i1 = true → i2 = true)
    (hv : v1 = true → v2 = true) (hf : f1 = true → f2 = true)
    (hm : m1 = true → m2 = true) (hb : b1 = true → b2 = true)
    (hw : w1 = true → w2 = true) (hd : d1 = true → d2 = true)
    (hp : p1 = true → p2 = true) :
    security_base e1 i1 v1 f1 m1 b1 w1 d1 p1 ≤
      security_base e2 i2 v2 f2 m2 b2 w2 d2 p2 := by
  rw [security_base_sum, security_base_sum]
  have h1 := bIte_le e1 e2 15 (by norm_num) he
  have h2 := bIte_le i1 i2 10 (by norm_num) hi
  have h3 := bIte_le v1 v2 8 (by norm_num) hv
  have h4 := bIte_le f1 f2 7 (by norm_num) hf
  have h5 := bIte_neg_le m1 m2 10 (by norm_num) hm
  have h6 := bIte_neg_le b1 b2 5 (by norm_num) hb
  have h7 := bIte_le w1 w2 5 (by norm_num) hw
  have h8 := bIte_le d1 d2 3 (by norm_num) hd
  have h9 := bIte_le p1 p2 5 (by norm_num) hp
  have hsum : 60 + bIte e1 15 + bIte i1 10 + bIte v1 8 + bIte f1 7 - bIte (!m1) 10 -
      bIte (!b1) 5 + bIte w1 5 + bIte d1 3 + bIte p1 5 ≤
      60 + bIte e2 15 + bIte i2 10 + bIte v2 8 + bIte f2 7 - bIte (!m2) 10 -
      bIte (!b2) 5 + bIte w2 5 + bIte d2 3 + bIte p2 5 := by linarith
  exact min_le_min (max_le_max hsum (le_refl 0)) (le_refl 100)

theorem toList_append3 (u t v : String) :
    (u ++ t ++ v).toList = u.toList ++ t.toList ++ v.toList := by
  rw [strToList_append, strToList_append]

theorem substrB_str_mono (x : String) (u t v : String)
    (h : substrB x.toList (lowerL t.toList) = true) :
    substrB x.toList (lowerL (u ++ t ++ v).toList) = true := by
  rw [toList_append3]
  simp only [lowerL, List.map_append]
  exact substrB_mono _ _ _ _ h

theorem hasAnyTerm_mono (terms : List String) (u t v : String)
    (h : hasAnyTerm terms (lowerL t.toList) = true) :
    hasAnyTerm terms (lowerL (u ++ t ++ v).toList) = true := by
  simp only [hasAnyTerm, List.any_eq_true] at h ⊢
  obtain ⟨x, hx, hsub⟩ := h
  exact ⟨x, hx, substrB_str_mono x u t v hsub⟩

theorem calculate_scores_security_eq (architecture cloud_provider : String) :
    (calculate_scores architecture cloud_provider).security =
      calculate_security_score (analyze_architecture architecture cloud_provider)
        architecture := rfl

/-- The security sub-score as `security_base` applied to its nine Boolean
text signals. -/
theorem calc_sec_as_base (a c : String) :
    calculate_security_score (analyze_architecture a c) a =
      security_base (hasAnyTerm ["encryption", "ssl", "tls"] (lowerL a.toList))
        (hasAnyTerm ["iam", "role", "policy", "access"] (lowerL a.toList))
        (hasAnyTerm ["vpc", "virtual private", "network"] (lowerL a.toList))
        (hasAnyTerm ["firewall", "security group", "nacl"] (lowerL a.toList))
        (hasAnyTerm ["monitoring", "cloudwatch", "logging"] (lowerL a.toList))
        (hasAnyTerm ["backup", "snapshot", "restore"] (lowerL a.toList))
        (substrB "waf".toList (lowerL a.toList))
        (substrB "ddos".toList (lowerL a.toList))
        (substrB "private subnet".toList (lowerL a.toList)) := rfl

/-! ## Claims -/

/-- A text whose ScoringEngine sub-scores are (80, 100, 98, 94, 82), a
tuple at which the binary64 weighted sum rounds just below the exact
value 91. -/
def weight_boundary_text : String :=
  "firewall, waf, ddos, private subnet, snapshot, zone, redundant, disaster recovery, rds, database, container, lambda, sqs, read replica, connection pooling, compression, optimization, web, cost monitoring, load balancer, microservice"

/-- C1 (amended): the `ScoringEngine` overall score is the left-associated
binary64 weighted sum of its five sub-scores with the fixed weights
0.25/0.25/0.20/0.15/0.15, truncated toward zero by `int()`, and is fully
determined by those five sub-scores; because the sum is evaluated in
binary64 it can land one below the exact weighted truncated sum at
rounding-boundary tuples (at sub-scores (80, 100, 98, 94, 82) the float
sum truncates to 90 while the exact sum truncates to 91).  The local
fallback engine, in turn, sets its `overall` to the plain unweighted sum
of its four sub-scores (it produces no scalability sub-score), so the
weighted formula does not describe it at all. -/
theorem overall_score_formula :
    (∀ architecture cloud_provider : String,
      (calculate_scores architecture cloud_provider).overall =
        weighted_overall_f64 (calculate_scores architecture cloud_provider).security
          (calculate_scores architecture cloud_provider).reliability
          (calculate_scores architecture cloud_provider).scalability
          (calculate_scores architecture cloud_provider).performance
          (calculate_scores architecture cloud_provider).cost) ∧
    (∀ a1 p1 a2 p2 : String,
      (calculate_scores a1 p1).security = (calculate_scores a2 p2).security →
      (calculate_scores a1 p1).reliability = (calculate_scores a2 p2).reliability →
      (calculate_scores a1 p1).scalability = (calculate_scores a2 p2).scalability →
      (calculate_scores a1 p1).performance = (calculate_scores a2 p2).performance →
      (calculate_scores a1 p1).cost = (calculate_scores a2 p2).cost →
      (calculate_scores a1 p1).overall = (calculate_scores a2 p2).overall) ∧
    (weighted_overall_f64 80 100 98 94 82 = 90 ∧
      weighted_overall_exact 80 100 98 94 82 = 91) ∧
    (∀ (catalog : List (String × List PatRule)) (patterns : List ArchPatternSpec)
        (architecture_text : String),
      (calculate_local_scores_with catalog patterns architecture_text).overall =
        (calculate_local_scores_with catalog patterns architecture_text).security +
        (calculate_local_scores_with catalog patterns architecture_text).reliability +
        (calculate_local_scores_with catalog patterns architecture_text).performance +
        (calculate_local_scores_with catalog patterns architecture_text).cost) := by
  refine ⟨fun a c => rfl, ?_,
    ⟨by decide, by
      norm_num [weighted_overall_exact, pyInt, scoring_weights_security,
        scoring_weights_reliability, scoring_weights_scalability,
        scoring_weights_performance, scoring_weights_cost]⟩,
    fun cat ps t => rfl⟩
  intro a1 p1 a2 p2 h1 h2 h3 h4 h5
  have e : ∀ a p : String,
      (calculate_scores a p).overall =
        weighted_overall_f64 (calculate_scores a p).security
          (calculate_scores a p).reliability (calculate_scores a p).scalability
          (calculate_scores a p).performance (calculate_scores a p).cost :=
    fun a p => rfl
  rw [e, e, h1, h2, h3, h4, h5]

/-- Witness for C1: two distinct inputs with identical sub-scores get the
same overall score. -/
theorem overall_score_formula_witness :
    (calculate_scores "hello" "aws").overall = (calculate_scores "yo" "gcp").overall :=
  overall_score_formula.2.1 "hello" "aws" "yo" "gcp" (by decide) (by decide)
    (by decide) (by decide) (by decide)

/-- C1 counterexample, both halves of the claim: (i) on
`weight_boundary_text` the program reaches sub-scores (80, 100, 98, 94,
82) and returns overall 90, while the exact weighted truncated sum of
those five sub-scores is 91 — so the program's overall is not the
truncated weighted sum; (ii) on the empty input the local engine returns
sub-scores (22, 23, 15, 15) with overall 75, while the weighted truncated
sum would be at most 35 even granting a hypothetical fifth scalability
sub-score of 100. -/
theorem overall_not_exact_weighted :
    (calculate_scores weight_boundary_text "aws").security = 80 ∧
    (calculate_scores weight_boundary_text "aws").reliability = 100 ∧
    (calculate_scores weight_boundary_text "aws").scalability = 98 ∧
    (calculate_scores weight_boundary_text "aws").performance = 94 ∧
    (calculate_scores weight_boundary_text "aws").cost = 82 ∧
    (calculate_scores weight_boundary_text "aws").overall = 90 ∧
    weighted_overall_exact 80 100 98 94 82 = 91 ∧
    (calculate_local_scores "").overall = 75 ∧
    (calculate_local_scores "").security = 22 ∧
    (calculate_local_scores "").reliability = 23 ∧
    (calculate_local_scores "").performance = 15 ∧
    (calculate_local_scores "").cost = 15 ∧
    weighted_overall_exact 22 23 100 15 15 = 35 := by
  refine ⟨by decide, by decide, by decide, by decide, by decide, by decide, ?_,
    by decide, by decide, by decide, by decide, by decide, ?_⟩ <;>
    norm_num [weighted_overall_exact, pyInt, scoring_weights_security,
      scoring_weights_reliability, scoring_weights_scalability,
      scoring_weights_performance, scoring_weights_cost]

/-- C2: every `ScoringEngine` sub-score lies in [0, 100] (each is produced
by the clamp `min(max(score, 0), 100)`), and the local engine's four
sub-scores also lie in [0, 100]. -/
theorem sub_scores_clamped_bounds :
    (∀ architecture cloud_provider : String,
      (0 ≤ (calculate_scores architecture cloud_provider).security ∧
        (calculate_scores architecture cloud_provider).security ≤ 100) ∧
      (0 ≤ (calculate_scores architecture cloud_provider).reliability ∧
        (calculate_scores architecture cloud_provider).reliability ≤ 100) ∧
      (0 ≤ (calculate_scores architecture cloud_provider).scalability ∧
        (calculate_scores architecture cloud_provider).scalability ≤ 100) ∧
      (0 ≤ (calculate_scores architecture cloud_provider).performance ∧
        (calculate_scores architecture cloud_provider).performance ≤ 100) ∧
      (0 ≤ (calculate_scores architecture cloud_provider).cost ∧
        (calculate_scores architecture cloud_provider).cost ≤ 100)) ∧
    (∀ (catalog : List (String × List PatRule)) (patterns : List ArchPatternSpec)
        (architecture_text : String),
      (0 ≤ (calculate_local_scores_with catalog patterns architecture_text).security ∧
        (calculate_local_scores_with catalog patterns architecture_text).security ≤ 100) ∧
      (0 ≤ (calculate_local_scores_with catalog patterns architecture_text).reliability ∧
        (calculate_local_scores_with catalog patterns architecture_text).reliability ≤ 100) ∧
      (0 ≤ (calculate_local_scores_with catalog patterns architecture_text).performance ∧
        (calculate_local_scores_with catalog patterns architecture_text).performance ≤ 100) ∧
      (0 ≤ (calculate_local_scores_with catalog patterns architecture_text).cost ∧
        (calculate_local_scores_with catalog patterns architecture_text).cost ≤ 100)) := by
  constructor
  · intro a c
    refine ⟨⟨?_, ?_⟩, ?_, ?_, ?_, ?_⟩
    · exact le_trans (by norm_num) (security_base_bounds _ _ _ _ _ _ _ _ _).1
    · exact (security_base_bounds _ _ _ _ _ _ _ _ _).2
    · exact reliability_base_bounds _ _ _ _ _ _ _ _
    · exact scalability_base_bounds _ _ _ _ _ _ _ _ _ _
    · exact performance_base_bounds _ _ _ _ _ _ _ _ _ _ _
    · exact cost_base_bounds _ _ _ _ _ _ _ _ _ _ _ _
  · intro cat ps t
    obtain ⟨hs, hr, hp, hc⟩ := calculate_local_scores_range cat ps t
    exact ⟨⟨hs.1, le_trans hs.2 (by norm_num)⟩, ⟨hr.1, le_trans hr.2 (by norm_num)⟩,
      ⟨hp.1, le_trans hp.2 (by norm_num)⟩, ⟨hc.1, le_trans hc.2 (by norm_num)⟩⟩

/-- C3 (amended): the diagram engine's component parser always returns a
non-empty list and returns exactly the fixed users/web_app/database
fallback when the keyword scan detects nothing; the local engine's
`_extract_components`, however, has no fallback and returns the empty list
for the empty input. -/
theorem components_nonempty_fallback :
    (∀ content : String,
      parse_architecture_components content ≠ [] ∧
      (detected_components content = [] →
        parse_architecture_components content = generic_components)) ∧
    extract_components "" = [] := by
  constructor
  · intro content
    unfold parse_architecture_components
    by_cases h : (detected_components content).isEmpty
    · rw [if_pos h]
      exact ⟨by simp [generic_components], fun _ => rfl⟩
    · rw [if_neg h]
      constructor
      · intro heq
        rw [heq] at h
        exact h rfl
      · intro hdet
        exact absurd (by rw [hdet]; rfl) h
  · rfl

/-- Witness for C3 at the empty input: the parser returns the non-empty
generic fallback. -/
theorem components_nonempty_fallback_witness :
    parse_architecture_components "" ≠ [] ∧
    parse_architecture_components "" = generic_components :=
  ⟨(components_nonempty_fallback.1 "").1,
   (components_nonempty_fallback.1 "").2 (by decide)⟩

/-- C3 counterexample: the local `_extract_components` returns the empty
list on the empty input, so the claim that the component extractor always
returns a non-empty list fails for it. -/
theorem local_extract_components_empty : extract_components "" = [] := by decide

/-- C4: the local issue detection and score calculation are deterministic
state transformers: running detect/score twice in sequence from the
freshly initialised engine yields identical findings, identical scores,
and leaves the engine state unchanged. -/
theorem local_analysis_deterministic (architecture_text : String) :
    (detect_issues_st LocalAnalysisEngine.init architecture_text).1 =
      (detect_issues_st ((calculate_local_scores_st
        ((detect_issues_st LocalAnalysisEngine.init architecture_text).2)
        architecture_text).2) architecture_text).1 ∧
    (calculate_local_scores_st ((detect_issues_st LocalAnalysisEngine.init
        architecture_text).2) architecture_text).1 =
      (calculate_local_scores_st ((detect_issues_st ((calculate_local_scores_st
        ((detect_issues_st LocalAnalysisEngine.init architecture_text).2)
        architecture_text).2) architecture_text).2) architecture_text).1 ∧
    (calculate_local_scores_st ((detect_issues_st ((calculate_local_scores_st
        ((detect_issues_st LocalAnalysisEngine.init architecture_text).2)
        architecture_text).2) architecture_text).2) architecture_text).2 =
      LocalAnalysisEngine.init :=
  ⟨rfl, rfl, rfl⟩

/-- C5 (amended): every failed check of the static analyzer's built-in
analysis carries at most 3 example matches, each a substring of the
analysed content; the local engine's findings instead carry
`"Pattern matched: " ++ <regex source>` as evidence, which need not occur
in the input. -/
theorem evidence_material_shape :
    (∀ (patterns : List CheckSpec) (content : String),
      ∀ fc ∈ (built_in_analysis patterns content).failed_checks,
        fc.evidence.length ≤ 3 ∧
        fc.evidence.all (fun e => substrB e.toList content.toList) = true) ∧
    (∀ (catalog : List (String × List PatRule)) (architecture_text : String),
      ∀ f ∈ detect_issues_with catalog architecture_text,
        prefB "Pattern matched: ".toList f.evidence.toList = true) := by
  constructor
  · intro patterns content fc hfc
    have hfold : ∀ fc2 ∈ (built_in_fold patterns content).failed_checks,
        fc2.evidence.length ≤ 3 ∧
        fc2.evidence.all (fun e => substrB e.toList content.toList) = true := by
      refine foldl_invariant (built_in_step content.toList)
        (fun acc => ∀ fc2 ∈ acc.failed_checks,
          fc2.evidence.length ≤ 3 ∧
          fc2.evidence.all (fun e => substrB e.toList content.toList) = true)
        ?_ patterns _ (by intro fc2 h2; simp at h2)
      intro acc check hP fc2 hfc2
      unfold built_in_step at hfc2
      by_cases hm : (findall check.pattern content.toList).isEmpty
      · rw [if_pos hm] at hfc2
        exact hP fc2 hfc2
      · rw [if_neg hm] at hfc2
        simp only [List.mem_append, List.mem_singleton] at hfc2
        rcases hfc2 with h | h
        · exact hP fc2 h
        · subst h
          constructor
          · simp only [List.length_map]
            exact le_trans (le_of_eq (List.length_take 3 _)) (min_le_left 3 _)
          · rw [List.all_eq_true]
            intro e he
            simp only [List.mem_map] at he
            obtain ⟨m, hm2, rfl⟩ := he
            exact findall_substrB _ _ m (List.take_subset 3 _ hm2)
    have hchecks : (built_in_analysis patterns content).failed_checks =
        (built_in_fold patterns content).failed_checks := by
      unfold built_in_analysis
      split_ifs <;> rfl
    rw [hchecks] at hfc
    exact hfold fc hfc
  · intro catalog architecture_text f hf
    unfold detect_issues_with at hf
    refine foldl_invariant (category_step architecture_text.toList)
      (fun issues => ∀ f2 ∈ issues,
        prefB "Pattern matched: ".toList f2.evidence.toList = true)
      ?_ catalog [] (by intro f2 h2; simp at h2) f hf
    intro acc cr hP
    unfold category_step
    refine foldl_invariant (rule_step architecture_text.toList cr.1)
      (fun issues => ∀ f2 ∈ issues,
        prefB "Pattern matched: ".toList f2.evidence.toList = true)
      ?_ cr.2 acc hP
    intro acc2 r hP2
    unfold rule_step
    refine foldl_invariant (pattern_step architecture_text.toList cr.1 r)
      (fun issues => ∀ f2 ∈ issues,
        prefB "Pattern matched: ".toList f2.evidence.toList = true)
      ?_ r.patterns acc2 hP2
    intro acc3 p hP3 f2 hf2
    unfold pattern_step at hf2
    by_cases hm : (findall p.1 architecture_text.toList).isEmpty
    · rw [if_pos hm] at hf2
      exact hP3 f2 hf2
    · rw [if_neg hm] at hf2
      simp only [List.mem_append, List.mem_singleton] at hf2
      rcases hf2 with h | h
      · exact hP3 f2 h
      · subst h
        show prefB "Pattern matched: ".toList
          ("Pattern matched: " ++ p.2).toList = true
        rw [strToList_append]
        exact prefB_self_append _ _

/-- Witness for C5: a hardcoded-password input gives the static analyzer a
failed check with one evidence entry that is a substring of the content,
and gives the local engine a finding whose evidence starts with
`"Pattern matched: "`. -/
theorem evidence_material_shape_witness :
    ((["password = \"supersecret1\""] : List String).length ≤ 3 ∧
      (["password = \"supersecret1\""] : List String).all
        (fun e => substrB e.toList ("password = \"supersecret1\"" : String).toList) =
        true) ∧
    prefB "Pattern matched: ".toList
      ("Pattern matched: public[-_]read[-_]write" : String).toList = true := by
  constructor
  · exact evidence_material_shape.1 generic_patterns "password = \"supersecret1\""
      ⟨"BUILTIN_PASSWORD_HARDCODED", "Password Hardcoded", "critical",
       "Hardcoded password detected", 1, ["password = \"supersecret1\""]⟩
      (by decide)
  · exact evidence_material_shape.2 rule_patterns "public_read_write"
      ⟨"LOCAL_PUBLIC_ACCESS_0", "high", "security",
       "Public access configuration detected",
       "Pattern matched: public[-_]read[-_]write",
       "Moderate security risk requiring attention", 1, "public_access"⟩
      (by decide)

/-- C5 counterexample: on input `public_read_write` the local engine
produces exactly one finding, and its evidence (the regex source text) is
not a substring of the input. -/
theorem local_evidence_not_substring :
    (detect_issues "public_read_write").map (fun f => f.evidence) =
      ["Pattern matched: public[-_]read[-_]write"] ∧
    substrB "Pattern matched: public[-_]read[-_]write".toList
      "public_read_write".toList = false := by
  constructor <;> decide

/-- C6 (amended): the `AnalysisEngine` recommendation synthesizer always
returns a non-empty list (the three baseline items are always appended)
capped at 6 entries; the local engine's `_generate_recommendations`,
however, appends no baseline items and is only bounded by 3 — it can
return the empty list. -/
theorem recommendations_nonempty_capped :
    (∀ scores : ScoreDict,
      generate_recommendations_engine scores ≠ [] ∧
      (generate_recommendations_engine scores).length ≤ 6) ∧
    (∀ architecture_text : String,
      (generate_recommendations_local architecture_text).length ≤ 3) := by
  constructor
  · intro scores
    unfold generate_recommendations_engine
    split_ifs <;> exact ⟨by simp, by simp⟩
  · intro t
    unfold generate_recommendations_local
    split_ifs <;> simp

/-- C6 counterexample: on input `multi` the local engine returns an empty
recommendation list (no security findings, the multi-AZ branch is skipped
because `multi` occurs, and no sizing keyword occurs). -/
theorem local_recommendations_empty :
    generate_recommendations_local "multi" = [] := by decide

/-- C7 (amended): extending the input on either side — in particular
appending the substring `encryption` — never decreases the security
sub-score, because every keyword signal is monotone under substring
containment; inserting `encryption` in the middle of the text, however,
can split another keyword and decrease the score (see the
counterexample). -/
theorem security_monotone_extension (u v t cloud_provider : String) :
    (calculate_scores t cloud_provider).security ≤
      (calculate_scores (u ++ t ++ v) cloud_provider).security := by
  rw [calculate_scores_security_eq, calculate_scores_security_eq,
    calc_sec_as_base, calc_sec_as_base]
  exact security_base_mono _ _ _ _ _ _ _ _ _ _ _ _ _ _ _ _ _ _
    (hasAnyTerm_mono _ u t v) (hasAnyTerm_mono _ u t v) (hasAnyTerm_mono _ u t v)
    (hasAnyTerm_mono _ u t v) (hasAnyTerm_mono _ u t v) (hasAnyTerm_mono _ u t v)
    (substrB_str_mono _ u t v) (substrB_str_mono _ u t v) (substrB_str_mono _ u t v)

/-- C7 counterexample: inserting `encryption` at position 5 of `ssl iam`
(leaving the rest unchanged) yields `ssl iencryptionam`, whose security
sub-score drops from 70 to 60 because the insertion destroys the only
`iam` keyword occurrence while `ssl` already provided the encryption
bonus. -/
theorem security_insertion_decreases :
    "ssl i" ++ "encryption" ++ "am" = "ssl iencryptionam" ∧
    "ssl i" ++ "am" = "ssl iam" ∧
    (calculate_scores "ssl iam" "aws").security = 70 ∧
    (calculate_scores "ssl iencryptionam" "aws").security = 60 := by
  refine ⟨rfl, rfl, ?_, ?_⟩ <;> decide

/-- The input of spec scenario 1. -/
def scenario1 : String :=
  "EC2 web server connected to MySQL RDS database, single availability zone, no encryption"

set_option maxHeartbeats 8000000 in
/-- On the scenario-1 input the rule engine fires exactly one pattern:
the third `no_backups` pattern `(?!.*backup).*database`.  Its `single_az`
patterns require `availability_zone =` or `aws_db_instance`, which do not
occur, and no security pattern matches. -/
theorem scenario1_issues_eq :
    detect_issues scenario1 =
      [{ id := "LOCAL_NO_BACKUPS_0", severity := "high", category := "reliability",
         detail := "No backup configuration detected",
         evidence := "Pattern matched: (?!.*backup).*database",
         business_impact := "Potential service disruptions",
         matches_found := 1, rule := "no_backups" }] := by
  decide

/-- C8 (amended): on the scenario-1 input the analysis produces exactly
one Finding — a reliability Finding from the `no_backups` rule (not from
the `single_az` rule) — and no security Finding at all; the ScoringEngine
security sub-score is exactly 60 (the `no encryption` phrase itself grants
the encryption bonus); the local extractor detects `compute` and
`database` components and the diagram parser `web_server` and `database`. -/
theorem scenario1_behavior :
    (detect_issues scenario1).map (fun f => (f.rule, f.category, f.severity)) =
      [("no_backups", "reliability", "high")] ∧
    ((detect_issues scenario1).filter (fun f => f.category == "security")).length = 0 ∧
    (calculate_scores scenario1 "aws").security = 60 ∧
    extract_components scenario1 = ["compute", "database"] ∧
    (parse_architecture_components scenario1).map (fun c => c.ctype) =
      ["web_server", "database"] := by
  refine ⟨?_, ?_, by decide, by decide, by decide⟩
  · rw [scenario1_issues_eq]
    rfl
  · rw [scenario1_issues_eq]
    rfl

/-- C8 counterexample: the claim's expectations fail on the scenario-1
input — there is no `single_az` Finding, no security-category Finding, and
the security sub-score is not strictly below 60. -/
theorem scenario1_expectations_fail :
    ((detect_issues scenario1).filter (fun f => f.rule == "single_az")).length = 0 ∧
    ((detect_issues scenario1).filter (fun f => f.category == "security")).length = 0 ∧
    ¬((calculate_scores scenario1 "aws").security < 60) := by
  refine ⟨?_, ?_, by decide⟩
  · rw [scenario1_issues_eq]
    rfl
  · rw [scenario1_issues_eq]
    rfl

/-- C9: a component list never contains two components of the same kind —
the diagram parser appends at most one component per catalog entry (the
inner keyword loop stops at the first match) and the catalog keys are
pairwise distinct, as are the fallback kinds; the local extractor
likewise. -/
theorem component_kinds_nodup :
    (∀ content : String,
      ((parse_architecture_components content).map (fun c => c.ctype)).Nodup) ∧
    (∀ architecture_text : String, (extract_components architecture_text).Nodup) := by
  constructor
  · intro content
    unfold parse_architecture_components
    by_cases h : (detected_components content).isEmpty
    · rw [if_pos h]
      decide
    · rw [if_neg h]
      have hsub : ((detected_components content).map (fun c => c.ctype)).Sublist
          (component_patterns_diagram.map (fun cp => cp.1)) := by
        unfold detected_components
        rw [List.map_map]
        exact List.Sublist.map _ (List.filter_sublist _)
      exact List.Nodup.sublist hsub (by decide)
  · intro t
    have hsub : (extract_components t).Sublist
        (component_patterns_local.map (fun cp => cp.1)) := by
      unfold extract_components
      exact List.Sublist.map _ (List.filter_sublist _)
    exact List.Nodup.sublist hsub (by decide)

/-- C10: the ScoringEngine security sub-score always lies in [45, 100]:
the only negative adjustments are the no-monitoring (−10) and no-backup
(−5) penalties on the base of 60, so the lower clamp at 0 is never
reached. -/
theorem security_score_lower_bound (architecture cloud_provider : String) :
    45 ≤ (calculate_scores architecture cloud_provider).security ∧
      (calculate_scores architecture cloud_provider).security ≤ 100 := by
  rw [calculate_scores_security_eq, calc_sec_as_base]
  exact security_base_bounds _ _ _ _ _ _ _ _ _

end StackStage
